import Mathlib

/-!
# Verification of the system-monitor-pro alerting core

A shallow embedding of `app/alert_manager.py` (the threshold/cooldown alert
state machine), the delivery boundary of `app/mqtt_publisher.py`, and the
collector aggregation loop of `app/collectors/__init__.py`, together with
theorems settling the specification's claims about them.

Modelling conventions:
* Python `dict[str, V]` is an insertion-ordered association list with
  `dictGet` / `dictSet` mirroring `d.get(k)` / `d[k] = v`.
* Sample values (`metric.value`) are either strings or numbers; Python floats
  and wall-clock times are modelled as rationals.
* `float(x)` on a string is modelled by a decimal-literal parser `pyFloat?`
  that succeeds exactly on optionally signed decimal digit strings with at
  most one decimal point (covering every value the collectors emit) and fails
  on anything else (for example `"N/A"`, `"on"`, `"off"`); failure of the
  Python call raises `ValueError`, which line 93 of `alert_manager.py`
  catches and turns into `continue`, modelled by an `Option` result.
* `time.time()` is modelled as a single value `now` per call of
  `check_thresholds`: the code samples the clock once at the top of the tick
  and again inside `_should_alert`, and the model identifies the two reads.
-/

/-- A Python scalar value as it occurs in `MetricValue.value`: a string or a
number (int and float are identified as rationals). -/
inductive Value where
  | str (s : String)
  | num (q : ℚ)
deriving DecidableEq, Repr

/-- One metric sample (`collectors/base.py`, class `MetricValue`): the fields
`check_thresholds` reads are `sensor_id` and `value`. -/
structure MetricValue where
  sensor_id : String
  value : Value
deriving DecidableEq, Repr

/-- The configuration fields consumed by the alerting core
(`app/config.py`, with its literal defaults). -/
structure Config where
  cpu_threshold : ℚ := 90
  memory_threshold : ℚ := 85
  disk_threshold : ℚ := 85
  temp_threshold : ℚ := 80
  enable_alerts : Bool := true
  alert_cooldown : ℚ := 300
deriving DecidableEq, Repr

/-- An emitted alert: the arguments of the `_send_alert` call at
`alert_manager.py` lines 113-118. -/
structure AlertEvent where
  sensor_id : String
  name : String
  value : Value
  threshold : Option ℚ
deriving DecidableEq, Repr

/-- The mutable state of `AlertManager`: `self.last_alerts` and
`self._alert_states` (both Python dicts). -/
structure AlertMgrState where
  last_alerts : List (String × ℚ)
  alert_states : List (String × Bool)
deriving DecidableEq, Repr

/-- `d.get(k)` on a Python dict modelled as an association list
(first binding wins; `dictSet` keeps keys unique). -/
def dictGet {α : Type} (m : List (String × α)) (k : String) : Option α :=
  match m with
  | [] => none
  | (k', v) :: rest => if k' = k then some v else dictGet rest k

/-- `d[k] = v` on a Python dict: replace the binding in place, or append. -/
def dictSet {α : Type} (m : List (String × α)) (k : String) (v : α) :
    List (String × α) :=
  match m with
  | [] => [(k, v)]
  | (k', v') :: rest =>
      if k' = k then (k, v) :: rest else (k', v') :: dictSet rest k v

/-- `pat` is a prefix of the character list `l` (Python `str.startswith`
on exploded strings). -/
def listPre : List Char → List Char → Bool
  | [], _ => true
  | _ :: _, [] => false
  | a :: pa, b :: lb => a == b && listPre pa lb

/-- Python `s.startswith(pat)`. -/
def strStarts (s pat : String) : Bool := listPre pat.toList s.toList

/-- Python `s.endswith(pat)`. -/
def strEnds (s pat : String) : Bool := listPre pat.toList.reverse s.toList.reverse

/-- Value of a digit list read in base ten. -/
def digitsVal (l : List Char) : ℕ :=
  l.foldl (fun acc c => 10 * acc + (c.toNat - 48)) 0

/-- Decimal-literal fragment of Python `float(str)`: optional sign, then
digits with at most one point, at least one digit overall.  Anything else
(`"N/A"`, `"on"`, empty, lone `.`) fails. -/
def parseFloatStr? (s : String) : Option ℚ :=
  let cs := s.toList
  let body := match cs with
    | '-' :: r => some (true, r)
    | '+' :: r => some (false, r)
    | r => some (false, r)
  match body with
  | some (neg, r) =>
      let ip := r.takeWhile Char.isDigit
      let rest := r.dropWhile Char.isDigit
      let mag? : Option ℚ :=
        match rest with
        | [] => if ip.isEmpty then none else some (mkRat (digitsVal ip) 1)
        | '.' :: frac =>
            if frac.all Char.isDigit && !(ip.isEmpty && frac.isEmpty) then
              some (mkRat (digitsVal (ip ++ frac)) (10 ^ frac.length))
            else none
        | _ => none
      match mag? with
      | some q => some (if neg then -q else q)
      | none => none
  | none => none

/-- Python `float(metric.value)`: numbers pass through, strings are parsed,
failure models the `ValueError`/`TypeError` caught at line 93. -/
def pyFloat? (v : Value) : Option ℚ :=
  match v with
  | .num q => some q
  | .str s => parseFloatStr? s

/-- `AlertManager.THRESHOLD_CONFIG` (lines 25-33): sensor_id mapped to
(config threshold attribute name or None, display name, comparison type). -/
def THRESHOLD_CONFIG : List (String × (Option String × String × String)) :=
  [("cpu_usage", (some "cpu_threshold", "CPU Usage", "greater")),
   ("memory_usage", (some "memory_threshold", "Memory Usage", "greater")),
   ("cpu_temperature", (some "temp_threshold", "CPU Temperature", "greater")),
   ("rpi_gpu_temperature", (some "temp_threshold", "GPU Temperature", "greater")),
   ("rpi_under_voltage", (none, "Under Voltage", "binary")),
   ("rpi_throttled", (none, "Thermal Throttling", "binary")),
   ("rpi_temp_limited", (none, "Temperature Limited", "binary"))]

/-- `getattr(self.config, threshold_key, None)` (line 59) for the attribute
names occurring in `THRESHOLD_CONFIG`. -/
def getattrThreshold (cfg : Config) (key : String) : Option ℚ :=
  if key = "cpu_threshold" then some cfg.cpu_threshold
  else if key = "memory_threshold" then some cfg.memory_threshold
  else if key = "disk_threshold" then some cfg.disk_threshold
  else if key = "temp_threshold" then some cfg.temp_threshold
  else none

/-- `AlertManager._get_threshold_for_sensor` (lines 50-69): exact lookup in
`THRESHOLD_CONFIG` first (binary entries have no threshold value), then the
`disk_*_usage` pattern rule, else no rule. -/
def get_threshold_for_sensor (cfg : Config) (sensor_id : String) :
    Option (Option ℚ × String × String) :=
  match dictGet THRESHOLD_CONFIG sensor_id with
  | some (threshold_key, display_name, comparison_type) =>
      match threshold_key with
      | some key => some (getattrThreshold cfg key, display_name, comparison_type)
      | none => some (none, display_name, comparison_type)
  | none =>
      if strStarts sensor_id "disk_" && strEnds sensor_id "_usage" then
        some (some cfg.disk_threshold, "Disk Usage (" ++ sensor_id ++ ")", "greater")
      else none

/-- `AlertManager._should_alert` (lines 44-48): cooldown elapsed since the
last alert for this sensor (`last_alerts.get(sensor_id, 0)`). -/
def should_alert (cfg : Config) (last_alerts : List (String × ℚ))
    (current_time : ℚ) (sensor_id : String) : Bool :=
  let last_alert_time := (dictGet last_alerts sensor_id).getD 0
  decide (current_time - last_alert_time ≥ cfg.alert_cooldown)

/-- Lines 86-94 of `check_thresholds`: the `alert_condition` computation.
`none` models the `continue` taken when `float(metric.value)` raises;
a `greater` rule whose threshold value is `None` leaves the condition
`False` (the `elif` guard fails). -/
def alert_condition? (threshold_value : Option ℚ) (comparison_type : String)
    (v : Value) : Option Bool :=
  if comparison_type = "binary" then
    some (decide (v = Value.str "on"))
  else if comparison_type = "greater" then
    match threshold_value with
    | some t =>
        match pyFloat? v with
        | some x => some (decide (x > t))
        | none => none
    | none => some false
  else some false

/-- The body of the `for metric in metrics` loop of
`AlertManager.check_thresholds` (lines 78-119) for one metric: returns the
updated manager state and the alerts sent for this metric. -/
def checkStep (cfg : Config) (now : ℚ) (st : AlertMgrState)
    (metric : MetricValue) : AlertMgrState × List AlertEvent :=
  match get_threshold_for_sensor cfg metric.sensor_id with
  | none => (st, [])
  | some (threshold_value, display_name, comparison_type) =>
      match alert_condition? threshold_value comparison_type metric.value with
      | none => (st, [])
      | some alert_condition =>
          let previous_state := (dictGet st.alert_states metric.sensor_id).getD false
          let states := dictSet st.alert_states metric.sensor_id alert_condition
          let send := alert_condition &&
            (!previous_state || should_alert cfg st.last_alerts now metric.sensor_id)
          if send then
            (⟨dictSet st.last_alerts metric.sensor_id now, states⟩,
             [⟨metric.sensor_id, display_name, metric.value, threshold_value⟩])
          else
            (⟨st.last_alerts, states⟩, [])

/-- The loop of `check_thresholds`, iterated over the batch in order,
accumulating the emitted alerts. -/
def check_loop (cfg : Config) (now : ℚ) :
    AlertMgrState → List MetricValue → AlertMgrState × List AlertEvent
  | st, [] => (st, [])
  | st, metric :: rest =>
      let r := checkStep cfg now st metric
      let tail := check_loop cfg now r.1 rest
      (tail.1, r.2 ++ tail.2)

/-- `AlertManager.check_thresholds` (lines 71-119): early return when alerts
are disabled (lines 73-74), otherwise the loop over the batch. -/
def check_thresholds (cfg : Config) (now : ℚ) (st : AlertMgrState)
    (metrics : List MetricValue) : AlertMgrState × List AlertEvent :=
  if cfg.enable_alerts then check_loop cfg now st metrics else (st, [])

/-- One registered collector, abstracted to the outcome of its `collect()`
call on each tick: either a batch of metrics or a raised exception
(represented by its message). -/
structure Collector where
  collect : ℕ → Except String (List MetricValue)

/-- `CollectorRegistry.collect_all` (`collectors/__init__.py` lines 91-100)
at tick `t`: extend the batch with each collector's result in registration
order; a collector whose `collect()` raises is logged and contributes
nothing, and the loop proceeds. -/
def collect_all (collectors : List Collector) (t : ℕ) : List MetricValue :=
  match collectors with
  | [] => []
  | c :: rest =>
      (match c.collect t with
       | .ok ms => ms
       | .error _ => []) ++ collect_all rest t

/-- `AlertManager._send_alert` (lines 121-136): logs, then calls
`MQTTPublisher.publish_alert` (lines 162-174), which formats the message and
calls `client.publish`.  The paho client reports delivery failure through
its return value, never an exception, and `publish_alert` does not inspect
it; `deliver` is the oracle giving that delivery outcome per event, and the
returned Bool is the outcome as it reaches (and is dropped by)
`check_thresholds`. -/
def send_alert (deliver : AlertEvent → Bool) (ev : AlertEvent) : Bool :=
  deliver ev

/-- The loop body of `check_thresholds` with the Sink boundary made
explicit: identical to `checkStep`, but also records the delivery outcome of
each `_send_alert` call. -/
def checkStepSink (deliver : AlertEvent → Bool) (cfg : Config) (now : ℚ)
    (st : AlertMgrState) (metric : MetricValue) :
    AlertMgrState × List AlertEvent × List Bool :=
  match get_threshold_for_sensor cfg metric.sensor_id with
  | none => (st, [], [])
  | some (threshold_value, display_name, comparison_type) =>
      match alert_condition? threshold_value comparison_type metric.value with
      | none => (st, [], [])
      | some alert_condition =>
          let previous_state := (dictGet st.alert_states metric.sensor_id).getD false
          let states := dictSet st.alert_states metric.sensor_id alert_condition
          let send := alert_condition &&
            (!previous_state || should_alert cfg st.last_alerts now metric.sensor_id)
          if send then
            let ev : AlertEvent := ⟨metric.sensor_id, display_name, metric.value, threshold_value⟩
            let outcome := send_alert deliver ev
            (⟨dictSet st.last_alerts metric.sensor_id now, states⟩, [ev], [outcome])
          else
            (⟨st.last_alerts, states⟩, [], [])

/-- The loop of `check_thresholds` with delivery outcomes recorded. -/
def check_loop_sink (deliver : AlertEvent → Bool) (cfg : Config) (now : ℚ) :
    AlertMgrState → List MetricValue → AlertMgrState × List AlertEvent × List Bool
  | st, [] => (st, [], [])
  | st, metric :: rest =>
      let r := checkStepSink deliver cfg now st metric
      let tail := check_loop_sink deliver cfg now r.1 rest
      (tail.1, r.2.1 ++ tail.2.1, r.2.2 ++ tail.2.2)

/-- `check_thresholds` with the Sink boundary made explicit. -/
def check_thresholds_sink (deliver : AlertEvent → Bool) (cfg : Config)
    (now : ℚ) (st : AlertMgrState) (metrics : List MetricValue) :
    AlertMgrState × List AlertEvent × List Bool :=
  if cfg.enable_alerts then check_loop_sink deliver cfg now st metrics
  else (st, [], [])

example :
    check_thresholds {} 1000 ⟨[], []⟩
      [⟨"cpu_usage", .num 95⟩, ⟨"cpu_usage", .num 50⟩, ⟨"cpu_usage", .num 95⟩]
      = (⟨[("cpu_usage", 1000)], [("cpu_usage", true)]⟩,
         [⟨"cpu_usage", "CPU Usage", .num 95, some 90⟩,
          ⟨"cpu_usage", "CPU Usage", .num 95, some 90⟩]) := by decide

example : pyFloat? (.str "90.1") = some (mkRat 901 10) := by decide

example : pyFloat? (.str "N/A") = none := by decide

example : get_threshold_for_sensor {} "disk_data_usage"
    = some (some 85, "Disk Usage (disk_data_usage)", "greater") := by decide

example : get_threshold_for_sensor {} "disk_data_free" = none := by decide


/-! ## Basic lemmas about the dict model and the loop body -/

theorem dictGet_dictSet_self {α : Type} (m : List (String × α)) (k : String)
    (v : α) : dictGet (dictSet m k v) k = some v := by
  induction m with
  | nil => simp [dictGet, dictSet]
  | cons p rest ih =>
      obtain ⟨k', v'⟩ := p
      by_cases h : k' = k <;> simp [dictGet, dictSet, h, ih]

theorem dictGet_dictSet_ne {α : Type} (m : List (String × α)) (k k' : String)
    (v : α) (h : k ≠ k') : dictGet (dictSet m k v) k' = dictGet m k' := by
  induction m with
  | nil => simp [dictGet, dictSet, h]
  | cons p rest ih =>
      obtain ⟨ka, va⟩ := p
      by_cases hk : ka = k
      · subst hk; simp [dictGet, dictSet, h]
      · simp [dictGet, dictSet, hk, ih]

/-- Case-by-case characterization of the loop body `checkStep`. -/
theorem checkStep_spec (cfg : Config) (now : ℚ) (st : AlertMgrState)
    (metric : MetricValue) :
    (get_threshold_for_sensor cfg metric.sensor_id = none →
        checkStep cfg now st metric = (st, [])) ∧
    (∀ tv dn ct, get_threshold_for_sensor cfg metric.sensor_id = some (tv, dn, ct) →
      (alert_condition? tv ct metric.value = none →
          checkStep cfg now st metric = (st, [])) ∧
      (∀ b, alert_condition? tv ct metric.value = some b →
        checkStep cfg now st metric =
          if b && (!((dictGet st.alert_states metric.sensor_id).getD false) ||
                   should_alert cfg st.last_alerts now metric.sensor_id) then
            (⟨dictSet st.last_alerts metric.sensor_id now,
              dictSet st.alert_states metric.sensor_id b⟩,
             [⟨metric.sensor_id, dn, metric.value, tv⟩])
          else
            (⟨st.last_alerts, dictSet st.alert_states metric.sensor_id b⟩, []))) := by
  refine ⟨?_, ?_⟩
  · intro hr
    unfold checkStep
    rw [hr]
  · intro tv dn ct hr
    refine ⟨?_, ?_⟩
    · intro hc
      unfold checkStep
      rw [hr]
      dsimp only
      rw [hc]
    · intro b hc
      unfold checkStep
      rw [hr]
      dsimp only
      rw [hc]

/-- Every alert emitted while processing one metric carries that metric's
sensor id. -/
theorem checkStep_event_id (cfg : Config) (now : ℚ) (st : AlertMgrState)
    (metric : MetricValue) :
    ∀ e ∈ (checkStep cfg now st metric).2, e.sensor_id = metric.sensor_id := by
  intro e he
  cases hr : get_threshold_for_sensor cfg metric.sensor_id with
  | none =>
      rw [(checkStep_spec cfg now st metric).1 hr] at he
      simp at he
  | some tc =>
      obtain ⟨tv, dn, ct⟩ := tc
      cases hc : alert_condition? tv ct metric.value with
      | none =>
          rw [((checkStep_spec cfg now st metric).2 tv dn ct hr).1 hc] at he
          simp at he
      | some b =>
          rw [((checkStep_spec cfg now st metric).2 tv dn ct hr).2 b hc] at he
          split at he
          · simp at he
            subst he
            rfl
          · simp at he

/-- Processing one metric emits at most one alert. -/
theorem checkStep_events_len (cfg : Config) (now : ℚ) (st : AlertMgrState)
    (metric : MetricValue) : (checkStep cfg now st metric).2.length ≤ 1 := by
  cases hr : get_threshold_for_sensor cfg metric.sensor_id with
  | none => rw [(checkStep_spec cfg now st metric).1 hr]; simp
  | some tc =>
      obtain ⟨tv, dn, ct⟩ := tc
      cases hc : alert_condition? tv ct metric.value with
      | none => rw [((checkStep_spec cfg now st metric).2 tv dn ct hr).1 hc]; simp
      | some b =>
          rw [((checkStep_spec cfg now st metric).2 tv dn ct hr).2 b hc]
          split <;> simp

/-- Processing a metric of a different sensor leaves a sensor's stored alert
state and last-alert time untouched. -/
theorem checkStep_frame (cfg : Config) (now : ℚ) (st : AlertMgrState)
    (metric : MetricValue) (s : String) (h : metric.sensor_id ≠ s) :
    dictGet (checkStep cfg now st metric).1.alert_states s
      = dictGet st.alert_states s ∧
    dictGet (checkStep cfg now st metric).1.last_alerts s
      = dictGet st.last_alerts s := by
  cases hr : get_threshold_for_sensor cfg metric.sensor_id with
  | none => rw [(checkStep_spec cfg now st metric).1 hr]; exact ⟨rfl, rfl⟩
  | some tc =>
      obtain ⟨tv, dn, ct⟩ := tc
      cases hc : alert_condition? tv ct metric.value with
      | none =>
          rw [((checkStep_spec cfg now st metric).2 tv dn ct hr).1 hc]
          exact ⟨rfl, rfl⟩
      | some b =>
          rw [((checkStep_spec cfg now st metric).2 tv dn ct hr).2 b hc]
          split
          · exact ⟨dictGet_dictSet_ne _ _ _ _ h, dictGet_dictSet_ne _ _ _ _ h⟩
          · exact ⟨dictGet_dictSet_ne _ _ _ _ h, rfl⟩

/-- The behaviour of the loop body on a metric depends on the manager state
only through that sensor's stored alert state and last-alert time. -/
theorem checkStep_congr (cfg : Config) (now : ℚ) (st st' : AlertMgrState)
    (metric : MetricValue)
    (ha : dictGet st.alert_states metric.sensor_id
            = dictGet st'.alert_states metric.sensor_id)
    (hl : dictGet st.last_alerts metric.sensor_id
            = dictGet st'.last_alerts metric.sensor_id) :
    (checkStep cfg now st metric).2 = (checkStep cfg now st' metric).2 ∧
    dictGet (checkStep cfg now st metric).1.alert_states metric.sensor_id
      = dictGet (checkStep cfg now st' metric).1.alert_states metric.sensor_id ∧
    dictGet (checkStep cfg now st metric).1.last_alerts metric.sensor_id
      = dictGet (checkStep cfg now st' metric).1.last_alerts metric.sensor_id := by
  cases hr : get_threshold_for_sensor cfg metric.sensor_id with
  | none =>
      rw [(checkStep_spec cfg now st metric).1 hr,
          (checkStep_spec cfg now st' metric).1 hr]
      exact ⟨rfl, ha, hl⟩
  | some tc =>
      obtain ⟨tv, dn, ct⟩ := tc
      cases hc : alert_condition? tv ct metric.value with
      | none =>
          rw [((checkStep_spec cfg now st metric).2 tv dn ct hr).1 hc,
              ((checkStep_spec cfg now st' metric).2 tv dn ct hr).1 hc]
          exact ⟨rfl, ha, hl⟩
      | some b =>
          rw [((checkStep_spec cfg now st metric).2 tv dn ct hr).2 b hc,
              ((checkStep_spec cfg now st' metric).2 tv dn ct hr).2 b hc]
          rw [ha]
          have hsa : should_alert cfg st.last_alerts now metric.sensor_id
              = should_alert cfg st'.last_alerts now metric.sensor_id := by
            unfold should_alert
            rw [hl]
          rw [hsa]
          split
          · exact ⟨rfl, by rw [dictGet_dictSet_self, dictGet_dictSet_self],
              by rw [dictGet_dictSet_self, dictGet_dictSet_self]⟩
          · exact ⟨rfl, by rw [dictGet_dictSet_self, dictGet_dictSet_self], hl⟩

/-- If processing a metric emits an alert, the stored state afterwards is
active and the last-alert time is the tick time. -/
theorem checkStep_emit_state (cfg : Config) (now : ℚ) (st : AlertMgrState)
    (metric : MetricValue) (h : (checkStep cfg now st metric).2 ≠ []) :
    dictGet (checkStep cfg now st metric).1.alert_states metric.sensor_id
      = some true ∧
    dictGet (checkStep cfg now st metric).1.last_alerts metric.sensor_id
      = some now := by
  cases hr : get_threshold_for_sensor cfg metric.sensor_id with
  | none => rw [(checkStep_spec cfg now st metric).1 hr] at h; simp at h
  | some tc =>
      obtain ⟨tv, dn, ct⟩ := tc
      cases hc : alert_condition? tv ct metric.value with
      | none =>
          rw [((checkStep_spec cfg now st metric).2 tv dn ct hr).1 hc] at h
          simp at h
      | some b =>
          rw [((checkStep_spec cfg now st metric).2 tv dn ct hr).2 b hc] at h ⊢
          split at h
          · next hsend =>
              have hb : b = true := by
                cases b
                · simp at hsend
                · rfl
              subst hb
              rw [if_pos hsend]
              exact ⟨dictGet_dictSet_self _ _ _, dictGet_dictSet_self _ _ _⟩
          · simp at h

/-! ## Lemmas about the loop over the batch -/

/-- A stretch of the batch that never mentions sensor `s` leaves `s`'s
stored state untouched and emits no alert for `s`. -/
theorem check_loop_frame (cfg : Config) (now : ℚ) (s : String) :
    ∀ (ms : List MetricValue) (st : AlertMgrState),
      (∀ m ∈ ms, m.sensor_id ≠ s) →
      dictGet (check_loop cfg now st ms).1.alert_states s
          = dictGet st.alert_states s ∧
      dictGet (check_loop cfg now st ms).1.last_alerts s
          = dictGet st.last_alerts s ∧
      (check_loop cfg now st ms).2.filter (fun e => e.sensor_id == s) = [] := by
  intro ms
  induction ms with
  | nil => intro st _; exact ⟨rfl, rfl, rfl⟩
  | cons m rest ih =>
      intro st h
      have hm : m.sensor_id ≠ s := h m (by simp)
      have hframe := checkStep_frame cfg now st m s hm
      have hev := checkStep_event_id cfg now st m
      have ihr := ih (checkStep cfg now st m).1 (fun x hx => h x (by simp [hx]))
      refine ⟨?_, ?_, ?_⟩
      · show dictGet (check_loop cfg now (checkStep cfg now st m).1 rest).1.alert_states s
            = dictGet st.alert_states s
        rw [ihr.1, hframe.1]
      · show dictGet (check_loop cfg now (checkStep cfg now st m).1 rest).1.last_alerts s
            = dictGet st.last_alerts s
        rw [ihr.2.1, hframe.2]
      · show ((checkStep cfg now st m).2
              ++ (check_loop cfg now (checkStep cfg now st m).1 rest).2).filter
            (fun e => e.sensor_id == s) = []
        rw [List.filter_append, ihr.2.2, List.append_nil]
        rw [List.filter_eq_nil]
        intro e he
        have := hev e he
        simp [this, hm]

/-- Master lemma: when sensor `m.sensor_id` occurs exactly once in the
batch, the batch behaves for that sensor exactly as the single step on `m`
from the initial state. -/
theorem check_loop_single (cfg : Config) (now : ℚ) :
    ∀ (l1 : List MetricValue) (st : AlertMgrState) (m : MetricValue)
      (l2 : List MetricValue),
      (∀ x ∈ l1, x.sensor_id ≠ m.sensor_id) →
      (∀ x ∈ l2, x.sensor_id ≠ m.sensor_id) →
      (check_loop cfg now st (l1 ++ m :: l2)).2.filter
          (fun e => e.sensor_id == m.sensor_id) = (checkStep cfg now st m).2 ∧
      dictGet (check_loop cfg now st (l1 ++ m :: l2)).1.alert_states m.sensor_id
        = dictGet (checkStep cfg now st m).1.alert_states m.sensor_id ∧
      dictGet (check_loop cfg now st (l1 ++ m :: l2)).1.last_alerts m.sensor_id
        = dictGet (checkStep cfg now st m).1.last_alerts m.sensor_id := by
  intro l1
  induction l1 with
  | nil =>
      intro st m l2 _ h2
      have hf := check_loop_frame cfg now m.sensor_id l2 (checkStep cfg now st m).1 h2
      have hev := checkStep_event_id cfg now st m
      refine ⟨?_, ?_, ?_⟩
      · show ((checkStep cfg now st m).2
              ++ (check_loop cfg now (checkStep cfg now st m).1 l2).2).filter
            (fun e => e.sensor_id == m.sensor_id) = (checkStep cfg now st m).2
        rw [List.filter_append, hf.2.2, List.append_nil]
        rw [List.filter_eq_self]
        intro e he
        simp [hev e he]
      · exact hf.1
      · exact hf.2.1
  | cons x l1' ih =>
      intro st m l2 h1 h2
      have hx : x.sensor_id ≠ m.sensor_id := h1 x (by simp)
      have hframe := checkStep_frame cfg now st x m.sensor_id hx
      have hev := checkStep_event_id cfg now st x
      have ihr := ih (checkStep cfg now st x).1 m l2 (fun y hy => h1 y (by simp [hy])) h2
      have hcongr := checkStep_congr cfg now (checkStep cfg now st x).1 st m
        hframe.1 hframe.2
      refine ⟨?_, ?_, ?_⟩
      · show ((checkStep cfg now st x).2
              ++ (check_loop cfg now (checkStep cfg now st x).1 (l1' ++ m :: l2)).2).filter
            (fun e => e.sensor_id == m.sensor_id) = (checkStep cfg now st m).2
        rw [List.filter_append, ihr.1, hcongr.1]
        have : (checkStep cfg now st x).2.filter
            (fun e => e.sensor_id == m.sensor_id) = [] := by
          rw [List.filter_eq_nil]
          intro e he
          simp [hev e he, hx]
        rw [this, List.nil_append]
      · show dictGet (check_loop cfg now (checkStep cfg now st x).1
              (l1' ++ m :: l2)).1.alert_states m.sensor_id
            = dictGet (checkStep cfg now st m).1.alert_states m.sensor_id
        rw [ihr.2.1, hcongr.2.1]
      · show dictGet (check_loop cfg now (checkStep cfg now st x).1
              (l1' ++ m :: l2)).1.last_alerts m.sensor_id
            = dictGet (checkStep cfg now st m).1.last_alerts m.sensor_id
        rw [ihr.2.2, hcongr.2.2]

/-- After a notification this tick (state active, last-alert time equal to
`now`), a positive cooldown suppresses every further alert for that sensor
in the same call, provided none of its remaining samples evaluates the
condition to false. -/
theorem check_loop_suppressed (cfg : Config) (now : ℚ) (s : String)
    (hcool : 0 < cfg.alert_cooldown) :
    ∀ (ms : List MetricValue) (st : AlertMgrState),
      (∀ m ∈ ms, m.sensor_id = s → ∀ tv dn ct,
          get_threshold_for_sensor cfg m.sensor_id = some (tv, dn, ct) →
          alert_condition? tv ct m.value ≠ some false) →
      dictGet st.alert_states s = some true →
      dictGet st.last_alerts s = some now →
      (check_loop cfg now st ms).2.filter (fun e => e.sensor_id == s) = [] ∧
      dictGet (check_loop cfg now st ms).1.alert_states s = some true ∧
      dictGet (check_loop cfg now st ms).1.last_alerts s = some now := by
  intro ms
  induction ms with
  | nil => intro st _ ha hl; exact ⟨rfl, ha, hl⟩
  | cons m rest ih =>
      intro st hnc ha hl
      have hstep : (checkStep cfg now st m).2.filter (fun e => e.sensor_id == s) = [] ∧
          dictGet (checkStep cfg now st m).1.alert_states s = some true ∧
          dictGet (checkStep cfg now st m).1.last_alerts s = some now := by
        by_cases hs : m.sensor_id = s
        · cases hr : get_threshold_for_sensor cfg m.sensor_id with
          | none =>
              rw [(checkStep_spec cfg now st m).1 hr]
              exact ⟨rfl, ha, hl⟩
          | some tc =>
              obtain ⟨tv, dn, ct⟩ := tc
              cases hc : alert_condition? tv ct m.value with
              | none =>
                  rw [((checkStep_spec cfg now st m).2 tv dn ct hr).1 hc]
                  exact ⟨rfl, ha, hl⟩
              | some b =>
                  cases b with
                  | false => exact absurd hc (hnc m (by simp) hs tv dn ct hr)
                  | true =>
                      rw [((checkStep_spec cfg now st m).2 tv dn ct hr).2 true hc]
                      rw [hs, ha]
                      have hsup : should_alert cfg st.last_alerts now s = false := by
                        unfold should_alert
                        rw [hl]
                        simp only [Option.getD_some, sub_self]
                        rw [decide_eq_false_iff_not]
                        exact not_le.mpr hcool
                      rw [hsup]
                      simp [dictGet_dictSet_self, hl]
        · have hframe := checkStep_frame cfg now st m s hs
          have hev := checkStep_event_id cfg now st m
          refine ⟨?_, ?_, ?_⟩
          · rw [List.filter_eq_nil_iff]
            intro e he
            simp [hev e he, hs]
          · rw [hframe.1]; exact ha
          · rw [hframe.2]; exact hl
      have ihr := ih (checkStep cfg now st m).1
        (fun x hx => hnc x (by simp [hx])) hstep.2.1 hstep.2.2
      refine ⟨?_, ihr.2.1, ihr.2.2⟩
      show ((checkStep cfg now st m).2
            ++ (check_loop cfg now (checkStep cfg now st m).1 rest).2).filter
          (fun e => e.sensor_id == s) = []
      rw [List.filter_append, hstep.1, ihr.1]
      rfl

/-- A metric whose condition computation hits `continue` (numeric parse
failure) is invisible to the loop: removing it changes nothing. -/
theorem check_loop_skip (cfg : Config) (now : ℚ) (m : MetricValue)
    (hskip : ∀ st : AlertMgrState, checkStep cfg now st m = (st, [])) :
    ∀ (l1 l2 : List MetricValue) (st : AlertMgrState),
      check_loop cfg now st (l1 ++ m :: l2) = check_loop cfg now st (l1 ++ l2) := by
  intro l1
  induction l1 with
  | nil =>
      intro l2 st
      show (let r := checkStep cfg now st m
            let tail := check_loop cfg now r.1 l2
            (tail.1, r.2 ++ tail.2)) = check_loop cfg now st l2
      rw [hskip st]
      simp
  | cons x l1' ih =>
      intro l2 st
      show (let r := checkStep cfg now st x
            let tail := check_loop cfg now r.1 (l1' ++ m :: l2)
            (tail.1, r.2 ++ tail.2))
          = (let r := checkStep cfg now st x
             let tail := check_loop cfg now r.1 (l1' ++ l2)
             (tail.1, r.2 ++ tail.2))
      dsimp only
      rw [ih]

/-- The loop with the Sink boundary explicit computes the same state and
events as the plain loop, whatever the delivery outcomes are. -/
theorem check_loop_sink_eq (deliver : AlertEvent → Bool) (cfg : Config)
    (now : ℚ) : ∀ (ms : List MetricValue) (st : AlertMgrState),
      (check_loop_sink deliver cfg now st ms).1 = (check_loop cfg now st ms).1 ∧
      (check_loop_sink deliver cfg now st ms).2.1 = (check_loop cfg now st ms).2 := by
  have hstep : ∀ (st : AlertMgrState) (metric : MetricValue),
      (checkStepSink deliver cfg now st metric).1 = (checkStep cfg now st metric).1 ∧
      (checkStepSink deliver cfg now st metric).2.1 = (checkStep cfg now st metric).2 := by
    intro st metric
    unfold checkStepSink checkStep
    cases hr : get_threshold_for_sensor cfg metric.sensor_id with
    | none => exact ⟨rfl, rfl⟩
    | some tc =>
        obtain ⟨tv, dn, ct⟩ := tc
        dsimp only
        cases hc : alert_condition? tv ct metric.value with
        | none => exact ⟨rfl, rfl⟩
        | some b =>
            dsimp only
            split <;> exact ⟨rfl, rfl⟩
  intro ms
  induction ms with
  | nil => intro st; exact ⟨rfl, rfl⟩
  | cons m rest ih =>
      intro st
      simp only [check_loop_sink, check_loop]
      rw [(hstep st m).1, (hstep st m).2]
      have ihr := ih (checkStep cfg now st m).1
      exact ⟨ihr.1, by rw [ihr.2]⟩

/-! ## Claim theorems -/

/-- C1: Rising edge always notifies — for a batch in which the sensor occurs
once, if its resolved rule makes the condition true and its stored previous
state is false (or absent), `check_thresholds` emits exactly that one alert
for the sensor, whatever the cooldown and the stored last-alert time are. -/
theorem rising_edge_always_notifies (cfg : Config) (now : ℚ)
    (st : AlertMgrState) (l1 l2 : List MetricValue) (m : MetricValue)
    (tv : Option ℚ) (dn ct : String)
    (hen : cfg.enable_alerts = true)
    (h1 : ∀ x ∈ l1, x.sensor_id ≠ m.sensor_id)
    (h2 : ∀ x ∈ l2, x.sensor_id ≠ m.sensor_id)
    (hr : get_threshold_for_sensor cfg m.sensor_id = some (tv, dn, ct))
    (hc : alert_condition? tv ct m.value = some true)
    (hprev : (dictGet st.alert_states m.sensor_id).getD false = false) :
    (check_thresholds cfg now st (l1 ++ m :: l2)).2.filter
        (fun e => e.sensor_id == m.sensor_id)
      = [⟨m.sensor_id, dn, m.value, tv⟩] := by
  have hm := check_loop_single cfg now l1 st m l2 h1 h2
  have hstep : (checkStep cfg now st m).2 = [⟨m.sensor_id, dn, m.value, tv⟩] := by
    rw [((checkStep_spec cfg now st m).2 tv dn ct hr).2 true hc]
    rw [hprev]
    simp
  unfold check_thresholds
  rw [hen, if_pos rfl]
  rw [hm.1, hstep]

theorem rising_edge_always_notifies_witness :
    (check_thresholds {} 0 ⟨[], []⟩ [⟨"cpu_usage", .num 95⟩]).2.filter
        (fun e => e.sensor_id == "cpu_usage")
      = [⟨"cpu_usage", "CPU Usage", .num 95, some 90⟩] :=
  rising_edge_always_notifies {} 0 ⟨[], []⟩ [] [] ⟨"cpu_usage", .num 95⟩
    (some 90) "CPU Usage" "greater" rfl (by decide) (by decide) (by decide)
    (by decide) (by decide)

/-- C2: Sustained-condition cooldown — with the condition true and the
stored state already active, the sensor's alert fires exactly when
`now - last_notified_at ≥ cooldown` (last time defaulting to 0), and a
firing advances the stored last-alert time to `now`; otherwise no event. -/
theorem sustained_cooldown_gate (cfg : Config) (now : ℚ)
    (st : AlertMgrState) (l1 l2 : List MetricValue) (m : MetricValue)
    (tv : Option ℚ) (dn ct : String)
    (hen : cfg.enable_alerts = true)
    (h1 : ∀ x ∈ l1, x.sensor_id ≠ m.sensor_id)
    (h2 : ∀ x ∈ l2, x.sensor_id ≠ m.sensor_id)
    (hr : get_threshold_for_sensor cfg m.sensor_id = some (tv, dn, ct))
    (hc : alert_condition? tv ct m.value = some true)
    (hprev : (dictGet st.alert_states m.sensor_id).getD false = true) :
    (now - (dictGet st.last_alerts m.sensor_id).getD 0 ≥ cfg.alert_cooldown →
      (check_thresholds cfg now st (l1 ++ m :: l2)).2.filter
          (fun e => e.sensor_id == m.sensor_id)
        = [⟨m.sensor_id, dn, m.value, tv⟩] ∧
      dictGet (check_thresholds cfg now st (l1 ++ m :: l2)).1.last_alerts
          m.sensor_id = some now) ∧
    (now - (dictGet st.last_alerts m.sensor_id).getD 0 < cfg.alert_cooldown →
      (check_thresholds cfg now st (l1 ++ m :: l2)).2.filter
          (fun e => e.sensor_id == m.sensor_id) = []) := by
  have hm := check_loop_single cfg now l1 st m l2 h1 h2
  have hbase := ((checkStep_spec cfg now st m).2 tv dn ct hr).2 true hc
  rw [hprev] at hbase
  unfold check_thresholds
  rw [hen, if_pos rfl]
  constructor
  · intro hge
    have hsa : should_alert cfg st.last_alerts now m.sensor_id = true := by
      unfold should_alert
      exact decide_eq_true hge
    rw [hsa] at hbase
    constructor
    · rw [hm.1, hbase]
      simp
    · rw [hm.2.2, hbase]
      simp [dictGet_dictSet_self]
  · intro hlt
    have hsa : should_alert cfg st.last_alerts now m.sensor_id = false := by
      unfold should_alert
      rw [decide_eq_false_iff_not]
      exact not_le.mpr hlt
    rw [hsa] at hbase
    rw [hm.1, hbase]
    simp

theorem sustained_cooldown_gate_witness :
    ((check_thresholds {} 500 ⟨[("cpu_usage", 100)], [("cpu_usage", true)]⟩
        [⟨"cpu_usage", .num 95⟩]).2.filter (fun e => e.sensor_id == "cpu_usage")
      = [⟨"cpu_usage", "CPU Usage", .num 95, some 90⟩] ∧
     dictGet (check_thresholds {} 500 ⟨[("cpu_usage", 100)], [("cpu_usage", true)]⟩
        [⟨"cpu_usage", .num 95⟩]).1.last_alerts "cpu_usage" = some 500) ∧
    (check_thresholds {} 150 ⟨[("cpu_usage", 100)], [("cpu_usage", true)]⟩
        [⟨"cpu_usage", .num 95⟩]).2.filter (fun e => e.sensor_id == "cpu_usage") = [] :=
  ⟨(sustained_cooldown_gate {} 500 ⟨[("cpu_usage", 100)], [("cpu_usage", true)]⟩
      [] [] ⟨"cpu_usage", .num 95⟩ (some 90) "CPU Usage" "greater" rfl
      (by decide) (by decide) (by decide) (by decide) (by decide)).1
      (by norm_num [dictGet]),
   (sustained_cooldown_gate {} 150 ⟨[("cpu_usage", 100)], [("cpu_usage", true)]⟩
      [] [] ⟨"cpu_usage", .num 95⟩ (some 90) "CPU Usage" "greater" rfl
      (by decide) (by decide) (by decide) (by decide) (by decide)).2
      (by norm_num [dictGet])⟩

/-- C3: Clearing is silent — a sample whose resolved rule evaluates the
condition to false emits nothing, stores the inactive state, and leaves the
sensor's last-alert time unchanged. -/
theorem clearing_is_silent (cfg : Config) (now : ℚ)
    (st : AlertMgrState) (l1 l2 : List MetricValue) (m : MetricValue)
    (tv : Option ℚ) (dn ct : String)
    (hen : cfg.enable_alerts = true)
    (h1 : ∀ x ∈ l1, x.sensor_id ≠ m.sensor_id)
    (h2 : ∀ x ∈ l2, x.sensor_id ≠ m.sensor_id)
    (hr : get_threshold_for_sensor cfg m.sensor_id = some (tv, dn, ct))
    (hc : alert_condition? tv ct m.value = some false) :
    (check_thresholds cfg now st (l1 ++ m :: l2)).2.filter
        (fun e => e.sensor_id == m.sensor_id) = [] ∧
    dictGet (check_thresholds cfg now st (l1 ++ m :: l2)).1.alert_states
        m.sensor_id = some false ∧
    dictGet (check_thresholds cfg now st (l1 ++ m :: l2)).1.last_alerts
        m.sensor_id = dictGet st.last_alerts m.sensor_id := by
  have hm := check_loop_single cfg now l1 st m l2 h1 h2
  have hbase := ((checkStep_spec cfg now st m).2 tv dn ct hr).2 false hc
  simp only [Bool.false_and] at hbase
  rw [if_neg (by simp)] at hbase
  unfold check_thresholds
  rw [hen, if_pos rfl]
  refine ⟨?_, ?_, ?_⟩
  · rw [hm.1, hbase]
  · rw [hm.2.1, hbase]
    exact dictGet_dictSet_self _ _ _
  · rw [hm.2.2, hbase]

theorem clearing_is_silent_witness :
    (check_thresholds {} 500 ⟨[("cpu_usage", 100)], [("cpu_usage", true)]⟩
        [⟨"cpu_usage", .num 50⟩]).2.filter (fun e => e.sensor_id == "cpu_usage") = [] ∧
    dictGet (check_thresholds {} 500 ⟨[("cpu_usage", 100)], [("cpu_usage", true)]⟩
        [⟨"cpu_usage", .num 50⟩]).1.alert_states "cpu_usage" = some false ∧
    dictGet (check_thresholds {} 500 ⟨[("cpu_usage", 100)], [("cpu_usage", true)]⟩
        [⟨"cpu_usage", .num 50⟩]).1.last_alerts "cpu_usage"
      = dictGet [("cpu_usage", 100)] "cpu_usage" :=
  clearing_is_silent {} 500 ⟨[("cpu_usage", 100)], [("cpu_usage", true)]⟩
    [] [] ⟨"cpu_usage", .num 50⟩ (some 90) "CPU Usage" "greater" rfl
    (by decide) (by decide) (by decide) (by decide)

/-- C4: Condition semantics — a binary rule's condition is true exactly for
the literal string value "on" (and false for "off", "1" and every number),
and a greater-than rule with a present threshold compares the parsed value
strictly, so a value equal to the threshold gives a false condition. -/
theorem condition_met_semantics :
    (∀ (tv : Option ℚ) (v : Value),
        (alert_condition? tv "binary" v = some true ↔ v = Value.str "on")) ∧
    (∀ tv : Option ℚ, alert_condition? tv "binary" (Value.str "off") = some false) ∧
    (∀ tv : Option ℚ, alert_condition? tv "binary" (Value.str "1") = some false) ∧
    (∀ (tv : Option ℚ) (q : ℚ), alert_condition? tv "binary" (Value.num q) = some false) ∧
    (∀ (t x : ℚ) (v : Value), pyFloat? v = some x →
        (alert_condition? (some t) "greater" v = some true ↔ x > t)) ∧
    (∀ (t : ℚ) (v : Value), pyFloat? v = some t →
        alert_condition? (some t) "greater" v = some false) := by
  have hbin : ∀ (tv : Option ℚ) (v : Value),
      alert_condition? tv "binary" v = some (decide (v = Value.str "on")) := by
    intro tv v
    unfold alert_condition?
    rw [if_pos rfl]
  have hgt : ∀ (t x : ℚ) (v : Value), pyFloat? v = some x →
      alert_condition? (some t) "greater" v = some (decide (x > t)) := by
    intro t x v hx
    unfold alert_condition?
    rw [if_neg (by decide), if_pos rfl]
    dsimp only
    rw [hx]
  refine ⟨?_, ?_, ?_, ?_, ?_, ?_⟩
  · intro tv v
    rw [hbin tv v]
    simp
  · intro tv
    rw [hbin tv (Value.str "off")]
    decide
  · intro tv
    rw [hbin tv (Value.str "1")]
    decide
  · intro tv q
    rw [hbin tv (Value.num q)]
    simp
  · intro t x v hx
    rw [hgt t x v hx]
    simp
  · intro t v hx
    rw [hgt t t v hx]
    simp

theorem condition_met_semantics_witness :
    (alert_condition? none "binary" (Value.str "on") = some true ↔
        Value.str "on" = Value.str "on") ∧
    alert_condition? (some 90) "greater" (Value.str "90") = some false ∧
    (alert_condition? (some 90) "greater" (Value.str "90.1") = some true ↔
        mkRat 901 10 > 90) :=
  ⟨condition_met_semantics.1 none (Value.str "on"),
   condition_met_semantics.2.2.2.2.2 90 (Value.str "90") (by decide),
   condition_met_semantics.2.2.2.2.1 90 (mkRat 901 10) (Value.str "90.1") (by decide)⟩

/-- C6: Rule resolution order and the disk pattern — exact lookup in the
static map wins; only on a miss does the `disk_*_usage` pattern synthesize a
greater-than rule from the configured disk threshold; a sensor matching
neither (such as "disk_data_free") gets no rule and its processing leaves
the manager state untouched and emits nothing. -/
theorem rule_resolution_order :
    (∀ (cfg : Config) (s k dn ct : String),
        dictGet THRESHOLD_CONFIG s = some (some k, dn, ct) →
        get_threshold_for_sensor cfg s = some (getattrThreshold cfg k, dn, ct)) ∧
    (∀ (cfg : Config) (s dn ct : String),
        dictGet THRESHOLD_CONFIG s = some (none, dn, ct) →
        get_threshold_for_sensor cfg s = some (none, dn, ct)) ∧
    (∀ (cfg : Config) (s : String),
        dictGet THRESHOLD_CONFIG s = none →
        (strStarts s "disk_" && strEnds s "_usage") = true →
        get_threshold_for_sensor cfg s
          = some (some cfg.disk_threshold, "Disk Usage (" ++ s ++ ")", "greater")) ∧
    (∀ (cfg : Config) (s : String),
        dictGet THRESHOLD_CONFIG s = none →
        (strStarts s "disk_" && strEnds s "_usage") = false →
        get_threshold_for_sensor cfg s = none) ∧
    (∀ cfg : Config, get_threshold_for_sensor cfg "disk_data_usage"
        = some (some cfg.disk_threshold, "Disk Usage (disk_data_usage)", "greater")) ∧
    (∀ cfg : Config, get_threshold_for_sensor cfg "disk_data_free" = none) ∧
    (∀ (cfg : Config) (now : ℚ) (st : AlertMgrState) (m : MetricValue),
        get_threshold_for_sensor cfg m.sensor_id = none →
        checkStep cfg now st m = (st, [])) := by
  have h3 : ∀ (cfg : Config) (s : String),
      dictGet THRESHOLD_CONFIG s = none →
      (strStarts s "disk_" && strEnds s "_usage") = true →
      get_threshold_for_sensor cfg s
        = some (some cfg.disk_threshold, "Disk Usage (" ++ s ++ ")", "greater") := by
    intro cfg s hmiss hpat
    unfold get_threshold_for_sensor
    rw [hmiss]
    dsimp only
    rw [hpat]
    rfl
  have h4 : ∀ (cfg : Config) (s : String),
      dictGet THRESHOLD_CONFIG s = none →
      (strStarts s "disk_" && strEnds s "_usage") = false →
      get_threshold_for_sensor cfg s = none := by
    intro cfg s hmiss hpat
    unfold get_threshold_for_sensor
    rw [hmiss]
    dsimp only
    rw [hpat]
    rfl
  refine ⟨?_, ?_, h3, h4, ?_, ?_, ?_⟩
  · intro cfg s k dn ct h
    unfold get_threshold_for_sensor
    rw [h]
  · intro cfg s dn ct h
    unfold get_threshold_for_sensor
    rw [h]
  · intro cfg
    have := h3 cfg "disk_data_usage" (by decide) (by decide)
    rw [this]
    rfl
  · intro cfg
    exact h4 cfg "disk_data_free" (by decide) (by decide)
  · intro cfg now st m h
    exact (checkStep_spec cfg now st m).1 h

theorem rule_resolution_order_witness :
    get_threshold_for_sensor {} "cpu_usage"
      = some (getattrThreshold {} "cpu_threshold", "CPU Usage", "greater") ∧
    get_threshold_for_sensor {} "disk_data_usage"
      = some (some ({} : Config).disk_threshold, "Disk Usage (disk_data_usage)", "greater") ∧
    get_threshold_for_sensor {} "disk_data_free" = none ∧
    checkStep {} 0 ⟨[], []⟩ ⟨"disk_data_free", .num 99⟩ = (⟨[], []⟩, []) :=
  ⟨rule_resolution_order.1 {} "cpu_usage" "cpu_threshold" "CPU Usage" "greater" (by decide),
   rule_resolution_order.2.2.2.2.1 {},
   rule_resolution_order.2.2.2.2.2.1 {},
   rule_resolution_order.2.2.2.2.2.2 {} 0 ⟨[], []⟩ ⟨"disk_data_free", .num 99⟩ (by decide)⟩

/-- C7: Non-numeric skip — a sample under a greater-than rule whose value
does not parse as a float is skipped without any effect: removing it from
the batch gives the identical result (same state, same events), so the rest
of the batch is still processed. -/
theorem non_numeric_skip (cfg : Config) (now : ℚ) (st : AlertMgrState)
    (l1 l2 : List MetricValue) (m : MetricValue) (t : ℚ) (dn : String)
    (hr : get_threshold_for_sensor cfg m.sensor_id = some (some t, dn, "greater"))
    (hp : pyFloat? m.value = none) :
    check_thresholds cfg now st (l1 ++ m :: l2)
      = check_thresholds cfg now st (l1 ++ l2) := by
  have hc : alert_condition? (some t) "greater" m.value = none := by
    unfold alert_condition?
    rw [if_neg (by decide), if_pos rfl]
    dsimp only
    rw [hp]
  have hskip : ∀ st' : AlertMgrState, checkStep cfg now st' m = (st', []) :=
    fun st' => ((checkStep_spec cfg now st' m).2 (some t) dn "greater" hr).1 hc
  unfold check_thresholds
  cases hen : cfg.enable_alerts
  · rfl
  · rw [if_pos rfl, if_pos rfl]
    exact check_loop_skip cfg now m hskip l1 l2 st

theorem non_numeric_skip_witness :
    check_thresholds {} 0 ⟨[], []⟩
        [⟨"cpu_usage", .str "N/A"⟩, ⟨"memory_usage", .num 99⟩]
      = check_thresholds {} 0 ⟨[], []⟩ [⟨"memory_usage", .num 99⟩] :=
  non_numeric_skip {} 0 ⟨[], []⟩ [] [⟨"memory_usage", .num 99⟩]
    ⟨"cpu_usage", .str "N/A"⟩ 90 "CPU Usage" (by decide) (by decide)

/-- C9: Alerting disabled is a no-op — with `enable_alerts` false,
`check_thresholds` returns no events and the manager state is returned
exactly as it was. -/
theorem alerts_disabled_noop (cfg : Config) (now : ℚ) (st : AlertMgrState)
    (metrics : List MetricValue) (h : cfg.enable_alerts = false) :
    check_thresholds cfg now st metrics = (st, []) := by
  unfold check_thresholds
  rw [h]
  rfl

theorem alerts_disabled_noop_witness :
    check_thresholds { enable_alerts := false } 0
        ⟨[("cpu_usage", 100)], [("cpu_usage", true)]⟩ [⟨"cpu_usage", .num 95⟩]
      = (⟨[("cpu_usage", 100)], [("cpu_usage", true)]⟩, []) :=
  alerts_disabled_noop { enable_alerts := false } 0
    ⟨[("cpu_usage", 100)], [("cpu_usage", true)]⟩ [⟨"cpu_usage", .num 95⟩] rfl

/-- C5: Sink delivery failure is invisible — the engine's resulting state
and event list are the same whatever the delivery outcomes are (the paho
client reports delivery failure by value, `publish_alert` ignores it, and
nothing is re-raised), and in particular a notifying sensor's last-alert
time advances to the tick time even when every delivery fails. -/
theorem sink_failure_invisible :
    (∀ (deliver : AlertEvent → Bool) (cfg : Config) (now : ℚ)
        (st : AlertMgrState) (metrics : List MetricValue),
        (check_thresholds_sink deliver cfg now st metrics).1
          = (check_thresholds cfg now st metrics).1 ∧
        (check_thresholds_sink deliver cfg now st metrics).2.1
          = (check_thresholds cfg now st metrics).2) ∧
    (∀ (cfg : Config) (now : ℚ) (st : AlertMgrState) (m : MetricValue)
        (tv : Option ℚ) (dn ct : String),
        cfg.enable_alerts = true →
        get_threshold_for_sensor cfg m.sensor_id = some (tv, dn, ct) →
        alert_condition? tv ct m.value = some true →
        (dictGet st.alert_states m.sensor_id).getD false = false →
        dictGet (check_thresholds_sink (fun _ => false) cfg now st
            [m]).1.last_alerts m.sensor_id = some now) := by
  have h1 : ∀ (deliver : AlertEvent → Bool) (cfg : Config) (now : ℚ)
      (st : AlertMgrState) (metrics : List MetricValue),
      (check_thresholds_sink deliver cfg now st metrics).1
        = (check_thresholds cfg now st metrics).1 ∧
      (check_thresholds_sink deliver cfg now st metrics).2.1
        = (check_thresholds cfg now st metrics).2 := by
    intro deliver cfg now st metrics
    unfold check_thresholds_sink check_thresholds
    cases hen : cfg.enable_alerts
    · exact ⟨rfl, rfl⟩
    · exact check_loop_sink_eq deliver cfg now metrics st
  refine ⟨h1, ?_⟩
  intro cfg now st m tv dn ct hen hr hc hprev
  rw [(h1 (fun _ => false) cfg now st [m]).1]
  unfold check_thresholds
  rw [hen, if_pos rfl]
  show dictGet (checkStep cfg now st m).1.last_alerts m.sensor_id = some now
  have hstep := ((checkStep_spec cfg now st m).2 tv dn ct hr).2 true hc
  rw [hprev] at hstep
  rw [hstep]
  simp [dictGet_dictSet_self]

theorem sink_failure_invisible_witness :
    dictGet (check_thresholds_sink (fun _ => false) {} 7 ⟨[], []⟩
        [⟨"cpu_usage", .num 95⟩]).1.last_alerts "cpu_usage" = some 7 :=
  sink_failure_invisible.2 {} 7 ⟨[], []⟩ ⟨"cpu_usage", .num 95⟩
    (some 90) "CPU Usage" "greater" rfl (by decide) (by decide) (by decide)

/-- C8: Collector failure isolation — `collect_all` is total and returns
exactly the concatenation, in registration order, of the batches of the
collectors whose `collect()` succeeded this tick; the registry is the same
value next tick, so a collector that failed at tick `t` is invoked again at
tick `t + 1` and contributes normally if it then succeeds. -/
theorem collector_failure_isolation :
    (∀ (cs : List Collector) (t : ℕ),
        collect_all cs t
          = (cs.filterMap (fun c => (c.collect t).toOption)).join) ∧
    (∀ (l1 l2 : List Collector) (c : Collector) (t : ℕ) (e : String)
        (ms : List MetricValue),
        c.collect t = .error e → c.collect (t + 1) = .ok ms →
        collect_all (l1 ++ c :: l2) (t + 1)
          = collect_all l1 (t + 1) ++ ms ++ collect_all l2 (t + 1)) := by
  have happ : ∀ (l1 l2 : List Collector) (t : ℕ),
      collect_all (l1 ++ l2) t = collect_all l1 t ++ collect_all l2 t := by
    intro l1 l2 t
    induction l1 with
    | nil => rfl
    | cons c rest ih =>
        show (match c.collect t with | .ok ms => ms | .error _ => [])
              ++ collect_all (rest ++ l2) t
            = ((match c.collect t with | .ok ms => ms | .error _ => [])
              ++ collect_all rest t) ++ collect_all l2 t
        rw [ih, List.append_assoc]
  constructor
  · intro cs t
    induction cs with
    | nil => rfl
    | cons c rest ih =>
        cases h : c.collect t with
        | ok ms => simp [collect_all, h, Except.toOption, ih]
        | error e => simp [collect_all, h, Except.toOption, ih]
  · intro l1 l2 c t e ms hfail hok
    rw [happ l1 (c :: l2) (t + 1)]
    show collect_all l1 (t + 1)
        ++ ((match c.collect (t + 1) with | .ok ms => ms | .error _ => [])
            ++ collect_all l2 (t + 1))
      = collect_all l1 (t + 1) ++ ms ++ collect_all l2 (t + 1)
    rw [hok, List.append_assoc]

theorem collector_failure_isolation_witness :
    collect_all [Collector.mk (fun t => if t = 0 then .error "boom"
        else .ok [⟨"cpu_usage", .num 1⟩])] 1
      = collect_all [] 1 ++ [⟨"cpu_usage", .num 1⟩] ++ collect_all [] 1 :=
  collector_failure_isolation.2 [] []
    (Collector.mk (fun t => if t = 0 then .error "boom"
      else .ok [⟨"cpu_usage", .num 1⟩])) 0 "boom" [⟨"cpu_usage", .num 1⟩]
    rfl rfl

/-- C10 (counterexample): with the default configuration (cooldown 300 > 0),
a batch holding three samples of one sensor — alerting, clearing, alerting —
makes a single `check_thresholds` call emit two events for that sensor: the
clearing sample stores the inactive state, so the third sample is again a
rising edge that bypasses the cooldown. -/
theorem at_most_one_per_tick_counterexample :
    (0 : ℚ) < ({} : Config).alert_cooldown ∧
    ((check_thresholds {} 1000 ⟨[], []⟩
        [⟨"cpu_usage", .num 95⟩, ⟨"cpu_usage", .num 50⟩,
         ⟨"cpu_usage", .num 95⟩]).2.filter
      (fun e => e.sensor_id == "cpu_usage")).length = 2 := by
  constructor
  · show (0 : ℚ) < 300
    norm_num
  · decide

/-- C10 (amended): at most one notification per sensor per call under a
positive cooldown, provided no sample of that sensor in the batch evaluates
its rule's condition to false — a clearing sample mid-batch re-arms the
rising edge and a later violating sample fires again. -/
theorem at_most_one_event_per_sensor (cfg : Config) (now : ℚ) (s : String)
    (hcool : 0 < cfg.alert_cooldown) :
    ∀ (ms : List MetricValue) (st : AlertMgrState),
      (∀ m ∈ ms, m.sensor_id = s → ∀ tv dn ct,
          get_threshold_for_sensor cfg m.sensor_id = some (tv, dn, ct) →
          alert_condition? tv ct m.value ≠ some false) →
      ((check_thresholds cfg now st ms).2.filter
          (fun e => e.sensor_id == s)).length ≤ 1 := by
  intro ms st hnc
  unfold check_thresholds
  cases hen : cfg.enable_alerts
  · simp
  · rw [if_pos rfl]
    clear hen
    revert hnc
    induction ms generalizing st with
    | nil =>
        intro _
        simp [check_loop]
    | cons m rest ih =>
        intro hnc
        show (((checkStep cfg now st m).2
              ++ (check_loop cfg now (checkStep cfg now st m).1 rest).2).filter
            (fun e => e.sensor_id == s)).length ≤ 1
        rw [List.filter_append, List.length_append]
        by_cases hne : (checkStep cfg now st m).2.filter
            (fun e => e.sensor_id == s) = []
        · rw [hne]
          simp only [List.length_nil, Nat.zero_add]
          exact ih (checkStep cfg now st m).1 (fun x hx => hnc x (by simp [hx]))
        · have hnonempty : (checkStep cfg now st m).2 ≠ [] := by
            intro h0
            rw [h0] at hne
            exact hne rfl
          have hemit := checkStep_emit_state cfg now st m hnonempty
          have hms : m.sensor_id = s := by
            by_contra hms
            apply hne
            rw [List.filter_eq_nil_iff]
            intro e he
            simp [checkStep_event_id cfg now st m e he, hms]
          have hsup := check_loop_suppressed cfg now s hcool rest
            (checkStep cfg now st m).1
            (fun x hx => hnc x (by simp [hx]))
            (by rw [← hms]; exact hemit.1) (by rw [← hms]; exact hemit.2)
          rw [hsup.1]
          simp only [List.length_nil, Nat.add_zero]
          calc ((checkStep cfg now st m).2.filter
                (fun e => e.sensor_id == s)).length
              ≤ (checkStep cfg now st m).2.length := List.length_filter_le _ _
            _ ≤ 1 := checkStep_events_len cfg now st m

theorem at_most_one_event_per_sensor_witness :
    ((check_thresholds {} 1000 ⟨[], []⟩
        [⟨"cpu_usage", .num 95⟩, ⟨"cpu_usage", .num 96⟩]).2.filter
      (fun e => e.sensor_id == "cpu_usage")).length ≤ 1 := by
  refine at_most_one_event_per_sensor {} 1000 "cpu_usage"
    (by show (0 : ℚ) < 300; norm_num)
    [⟨"cpu_usage", .num 95⟩, ⟨"cpu_usage", .num 96⟩] ⟨[], []⟩ ?_
  intro m hm hms tv dn ct hr
  have h90 : get_threshold_for_sensor {} "cpu_usage"
      = some (some 90, "CPU Usage", "greater") := by decide
  simp only [List.mem_cons, List.not_mem_nil, or_false] at hm
  rcases hm with rfl | rfl <;>
  · dsimp only at hr
    rw [h90] at hr
    injection hr with h
    obtain ⟨h1, h23⟩ := Prod.mk.inj h
    obtain ⟨h2, h3⟩ := Prod.mk.inj h23
    subst h1
    subst h3
    decide
